import Mathlib

/-!
Verification of the pygameui component toolkit (src/ui.py) against its
specification.  The Python classes `Style`, `Component`, `Button` and
`ColorToggler` are shallowly embedded as Lean structures; the mouse/keyboard
handlers and the per-frame `update` become pure state-transformers.  Raising
the "uninitialized component" exception is modelled as `Except.error`;
hook invocations (`_on_hover`, `_on_blur`) and callback calls, which are
side effects in the Python code, are surfaced as explicit outputs so that
the spec's statements about them can be expressed.
-/

/-- Colors are opaque values to the toolkit logic: it only stores and
compares them.  `pygame.Color` objects are always truthy, so an
`Option Color` field with `some` mirrors a present color. -/
abbrev Color := Nat

/-- The `Style` class of src/ui.py: background fill, border color and
border width.  `None` defaults become `none`; `border_width` defaults to 1
at the construction sites, which is irrelevant to the embedded logic. -/
structure Style where
  background : Option Color
  border_color : Option Color
  border_width : Nat
  deriving DecidableEq, Repr

/-- A `pygame.Rect`: integer position and size. -/
structure Rect where
  x : Int
  y : Int
  w : Int
  h : Int
  deriving DecidableEq, Repr

/-- `Rect.collidepoint(px, py)`: true when the point is inside the
rectangle; pygame excludes the right and bottom edges. -/
def Rect.collidepoint (r : Rect) (p : Int × Int) : Bool :=
  decide (r.x ≤ p.1) && decide (p.1 < r.x + r.w) &&
  decide (r.y ≤ p.2) && decide (p.2 < r.y + r.h)

/-- The single error the core raises from interaction/render methods:
`_assert_initialized` raising on `rect is None`. -/
inductive UIError where
  | uninitialized
  deriving DecidableEq, Repr

/-- The edge-triggered hooks the mouse-motion handler can invoke. -/
inductive Hook where
  | onHover
  | onBlur
  deriving DecidableEq, Repr

/-- The drawing calls `render` issues to the screen, in order. -/
inductive DrawCmd where
  | fillRect : Color → Rect → DrawCmd
  | borderRect : Color → Rect → Nat → DrawCmd
  deriving DecidableEq, Repr

/-- The state of the Python `Component` base class (src/ui.py lines 31-39):
`size`, `rect` (None until `set_pos`), `style` (the normal style, from the
`style` kwarg), `style_hovered`, `is_hovered` and `active_style`.  The
`screen` handle is a pure drawing sink and carries no state the logic
reads, so it is not a field here. -/
structure Component where
  size : Int × Int
  rect : Option Rect
  style : Option Style
  style_hovered : Option Style
  is_hovered : Bool
  active_style : Option Style
  deriving DecidableEq, Repr

namespace Component

/-- `Component.__init__`: rect starts as None, `is_hovered` False and
`active_style = self.style`. -/
def init (size : Int × Int) (style style_hovered : Option Style) : Component :=
  { size := size
    rect := none
    style := style
    style_hovered := style_hovered
    is_hovered := false
    active_style := style }

/-- `Component.update` is a no-op (`pass`): it performs no initialization
check and changes nothing. -/
def update (c : Component) (_elapsed : Int) : Component :=
  c

/-- `Component.set_pos`: `self.rect = Rect(pos, self.size)`. -/
def set_pos (c : Component) (pos : Int × Int) : Component :=
  { c with rect := some ⟨pos.1, pos.2, c.size.1, c.size.2⟩ }

/-- `Component.handle_mouse_click`: assert initialized, then invoke the
click hook when the point collides with the rect.  The base class click
hook `_on_click` is `pass`, so the state is returned unchanged; whether
the hook was reached is reported as the second output. -/
def handle_mouse_click (c : Component) (p : Int × Int) :
    Except UIError (Component × Bool) :=
  match c.rect with
  | none => .error .uninitialized
  | some r =>
    if r.collidepoint p then .ok (c, true) else .ok (c, false)

/-- `Component.handle_mouse_motion` (src/ui.py lines 52-62): assert
initialized, compute `hover = rect.collidepoint(p)`, then

  - hovered and not hover: `active_style = style`, invoke `_on_blur`;
  - not hovered and hover: `active_style = style_hovered` when that style
    is present (Python truthiness of the kwarg), invoke `_on_hover`;
  - otherwise nothing;

finally `is_hovered = hover`.  The hooks invoked are returned alongside
the new state (the base-class hooks themselves are `pass`). -/
def handle_mouse_motion (c : Component) (p : Int × Int) :
    Except UIError (Component × List Hook) :=
  match c.rect with
  | none => .error .uninitialized
  | some r =>
    let hover := r.collidepoint p
    if c.is_hovered && !hover then
      .ok ({ c with active_style := c.style, is_hovered := hover }, [.onBlur])
    else if !c.is_hovered && hover then
      match c.style_hovered with
      | some sh =>
        .ok ({ c with active_style := some sh, is_hovered := hover }, [.onHover])
      | none =>
        .ok ({ c with is_hovered := hover }, [.onHover])
    else
      .ok ({ c with is_hovered := hover }, [])

/-- `Component.render` (src/ui.py lines 64-70): assert initialized, draw
the active style's background fill (when both are present), run the
content hook `_render` (a `pass` in the base class), then draw the border
(when a border color is present).  The drawing side effects are returned
as a command list. -/
def render (c : Component) : Except UIError (List DrawCmd) :=
  match c.rect with
  | none => .error .uninitialized
  | some r =>
    let bg : List DrawCmd :=
      match c.active_style with
      | some st =>
        match st.background with
        | some col => [.fillRect col r]
        | none => []
      | none => []
    let border : List DrawCmd :=
      match c.active_style with
      | some st =>
        match st.border_color with
        | some col => [.borderRect col r st.border_width]
        | none => []
      | none => []
    .ok (bg ++ border)

/-- Run a list of motion events in order, accumulating the hooks fired.
Only used on positioned components, for which the handler never errors;
on an error the run stops with the state unchanged, like the Python
exception aborting the event loop iteration. -/
def runMotions (c : Component) : List (Int × Int) → Component × List Hook
  | [] => (c, [])
  | p :: ps =>
    match handle_mouse_motion c p with
    | .error _ => (c, [])
    | .ok (c1, hs) =>
      let (c2, hs2) := runMotions c1 ps
      (c2, hs ++ hs2)

end Component

/-- The state of the Python `Button` class (src/ui.py lines 99-129):
a `Component` plus the callback, the on-click style and the cooldown
counter `_cooldown`.  The callback is an opaque zero-argument action whose
only property the logic reads is its truthiness, kept as `has_callback`;
its invocations are counted in the handlers' outputs.  The centered label
sub-component (`self.text`) is write-only for the embedded logic (it is
repositioned by `set_pos` and painted by `_render`) and none of the
claims mention it, so it is not a field here. -/
structure Button where
  comp : Component
  has_callback : Bool
  style_on_click : Option Style
  cooldown : Int
  deriving DecidableEq, Repr

namespace Button

/-- `Button.__init__`: the component part is initialized by
`Component.__init__`, `style_on_click` comes from the `style_onclick`
kwarg and `_cooldown = 0`. -/
def init (size : Int × Int) (style style_hovered style_on_click : Option Style)
    (has_callback : Bool) : Button :=
  { comp := Component.init size style style_hovered
    has_callback := has_callback
    style_on_click := style_on_click
    cooldown := 0 }

/-- `Button._on_click` (src/ui.py lines 125-129): call the callback when
one is set, set `active_style = style_on_click` and start the cooldown at
150.  Returns the new state and the number of callback invocations. -/
def on_click_hook (b : Button) : Button × Nat :=
  ({ b with
      comp := { b.comp with active_style := b.style_on_click }
      cooldown := 150 },
   if b.has_callback then 1 else 0)

/-- `Button.handle_mouse_click`: the inherited `Component.handle_mouse_click`
dispatching to the overridden `_on_click`.  The second output is the
number of callback invocations the call performed. -/
def handle_mouse_click (b : Button) (p : Int × Int) :
    Except UIError (Button × Nat) :=
  match b.comp.rect with
  | none => .error .uninitialized
  | some r =>
    if r.collidepoint p then .ok (on_click_hook b) else .ok (b, 0)

/-- `Button.handle_mouse_motion` is inherited unchanged from `Component`
(the hover/blur hooks are the base-class no-ops). -/
def handle_mouse_motion (b : Button) (p : Int × Int) :
    Except UIError (Button × List Hook) :=
  match Component.handle_mouse_motion b.comp p with
  | .error e => .error e
  | .ok (c, hs) => .ok ({ b with comp := c }, hs)

/-- `Button.set_pos`: sets the rect via the base class, then centers the
label (the label state itself is not modelled, see `Button`). -/
def set_pos (b : Button) (pos : Int × Int) : Button :=
  { b with comp := b.comp.set_pos pos }

/-- `Button.update` (src/ui.py lines 107-111): when the cooldown is
positive, decrease it by the elapsed time clamping at zero, and the
moment it reaches zero set `active_style` to `style_hovered` when
`is_hovered` else to the normal style. -/
def update (b : Button) (elapsed : Int) : Button :=
  if b.cooldown > 0 then
    let cd := max (b.cooldown - elapsed) 0
    if cd = 0 then
      { b with
          cooldown := cd
          comp := { b.comp with
            active_style :=
              if b.comp.is_hovered then b.comp.style_hovered else b.comp.style } }
    else
      { b with cooldown := cd }
  else
    b

/-- Run a list of `update` calls in order. -/
def runUpdates (b : Button) : List Int → Button
  | [] => b
  | e :: es => runUpdates (update b e) es

/-- The operations a frame loop performs on a single button. -/
inductive Op where
  | setPos (pos : Int × Int)
  | motion (p : Int × Int)
  | click (p : Int × Int)
  | tick (elapsed : Int)
  deriving DecidableEq, Repr

/-- One operation applied to a button.  A handler that raises the
uninitialized error leaves the state unchanged (the Python mutation
happens only after `_assert_initialized`). -/
def step (b : Button) : Op → Button
  | .setPos pos => b.set_pos pos
  | .motion p =>
    match b.handle_mouse_motion p with
    | .error _ => b
    | .ok (b1, _) => b1
  | .click p =>
    match b.handle_mouse_click p with
    | .error _ => b
    | .ok (b1, _) => b1
  | .tick e => b.update e

/-- A sequence of operations applied in order. -/
def runOps (b : Button) : List Op → Button
  | [] => b
  | op :: ops => runOps (step b op) ops

end Button

/-- The state of the Python `ColorToggler` class (src/ui.py lines
132-141): a `Button` plus the color list, the current index and the
`background` field holding the active color. -/
structure ColorToggler where
  btn : Button
  colors : List Color
  index : Nat
  background : Color
  deriving DecidableEq, Repr

namespace ColorToggler

/-- `ColorToggler.__init__`: `index = 0` and
`background = colors[0]`; the Python constructor faults on an empty
list, so construction requires a first element. -/
def init (b : Button) (c0 : Color) (rest : List Color) : ColorToggler :=
  { btn := b
    colors := c0 :: rest
    index := 0
    background := c0 }

/-- `ColorToggler._on_click` (src/ui.py lines 139-141): advance the index
by one modulo the list length and set `background` to the color at the
new index.  It overrides `Button._on_click` entirely: no callback, no
style change, no cooldown. -/
def on_click_hook (t : ColorToggler) : ColorToggler :=
  let i := (t.index + 1) % t.colors.length
  { t with index := i, background := t.colors.getD i 0 }

/-- The inherited `Component.handle_mouse_click` dispatching to the
`ColorToggler` override of `_on_click`. -/
def handle_mouse_click (t : ColorToggler) (p : Int × Int) :
    Except UIError ColorToggler :=
  match t.btn.comp.rect with
  | none => .error .uninitialized
  | some r =>
    if r.collidepoint p then .ok (on_click_hook t) else .ok t

/-- `n` clicks at the same point, applied in order; stops on the
uninitialized error. -/
def clicks (t : ColorToggler) (p : Int × Int) : Nat → ColorToggler
  | 0 => t
  | n + 1 =>
    match handle_mouse_click t p with
    | .error _ => t
    | .ok t1 => clicks t1 p n

end ColorToggler

/-- The construction-time error of the Grid layout in the spec's
taxonomy. -/
inductive LayoutError where
  | layoutOverflow
  deriving DecidableEq, Repr

/-- Modelled from the spec: the cells of a grid of `rows` rows and `cols`
columns, enumerated in row-major order, 0-indexed (the `GridContainer`
class lives in containers.py, which is not part of the sources; only its
caller file_browser_demo.py is). -/
def gridCells (rows cols : Nat) : List (Nat × Nat) :=
  (List.range rows).flatMap fun r => (List.range cols).map fun c => (r, c)

/-- Modelled from the spec: a constructed Grid container, holding its
dimensions, its children and the row-major cell assigned to each child by
list index. -/
structure GridContainer (α : Type) where
  rows : Nat
  cols : Nat
  children : List α
  cells : List (Nat × Nat)
  deriving Repr

/-- Modelled from the spec: constructing a `GridContainer` fails with
`LayoutOverflowError` when the number of children exceeds `rows*cols`;
otherwise child `i` is assigned the `i`-th row-major cell and excess
cells stay empty. -/
def GridContainer.make (rows cols : Nat) (children : List α) :
    Except LayoutError (GridContainer α) :=
  if rows * cols < children.length then
    .error .layoutOverflow
  else
    .ok { rows := rows
          cols := cols
          children := children
          cells := (gridCells rows cols).take children.length }

/-- C1: on every component (base `Component`, `Button`, `ColorToggler`)
whose `rect` is still `None` because `set_pos` has never been called,
`render`, `handle_mouse_click` and `handle_mouse_motion` all raise the
uninitialized-component error, and the error leaves the state untouched
(the handlers return only the error, so the caller sees a hard failure
with no partial mutation). -/
theorem uninitialized_raises (c : Component) (b : Button) (t : ColorToggler)
    (p : Int × Int)
    (hc : c.rect = none) (hb : b.comp.rect = none) (ht : t.btn.comp.rect = none) :
    c.handle_mouse_click p = .error .uninitialized ∧
    c.handle_mouse_motion p = .error .uninitialized ∧
    c.render = .error .uninitialized ∧
    b.handle_mouse_click p = .error .uninitialized ∧
    b.handle_mouse_motion p = .error .uninitialized ∧
    t.handle_mouse_click p = .error .uninitialized := by
  refine ⟨?_, ?_, ?_, ?_, ?_, ?_⟩ <;>
    simp [Component.handle_mouse_click, Component.handle_mouse_motion,
      Component.render, Button.handle_mouse_click, Button.handle_mouse_motion,
      ColorToggler.handle_mouse_click, hc, hb, ht]

/-- Witness for C1 at freshly constructed components. -/
theorem uninitialized_raises_witness :
    (Component.init (10, 10) none none).handle_mouse_click (3, 3) = .error .uninitialized ∧
    (Component.init (10, 10) none none).handle_mouse_motion (3, 3) = .error .uninitialized ∧
    (Component.init (10, 10) none none).render = .error .uninitialized ∧
    (Button.init (10, 10) none none none true).handle_mouse_click (3, 3) = .error .uninitialized ∧
    (Button.init (10, 10) none none none true).handle_mouse_motion (3, 3) = .error .uninitialized ∧
    (ColorToggler.init (Button.init (10, 10) none none none true) 7 [8]).handle_mouse_click (3, 3)
      = .error .uninitialized :=
  uninitialized_raises (Component.init (10, 10) none none)
    (Button.init (10, 10) none none none true)
    (ColorToggler.init (Button.init (10, 10) none none none true) 7 [8])
    (3, 3) rfl rfl rfl

/-- C3: on a positioned button that stores a callback,
`handle_mouse_click p` invokes the callback exactly once when `p` hits
the rect, and performs no callback invocation and no state change at all
when `p` misses it. -/
theorem button_click_callback (b : Button) (r : Rect) (p : Int × Int)
    (hr : b.comp.rect = some r) (hcb : b.has_callback = true) :
    (r.collidepoint p = true →
      ∃ b1, b.handle_mouse_click p = .ok (b1, 1)) ∧
    (r.collidepoint p = false →
      b.handle_mouse_click p = .ok (b, 0)) := by
  constructor
  · intro hhit
    exact ⟨(Button.on_click_hook b).1, by
      simp [Button.handle_mouse_click, Button.on_click_hook, hr, hhit, hcb]⟩
  · intro hmiss
    simp [Button.handle_mouse_click, hr, hmiss]

/-- Witness for C3: a 10 by 10 button at the origin, hit at (5, 5) and
missed at (50, 50). -/
theorem button_click_callback_witness :
    (Rect.collidepoint ⟨0, 0, 10, 10⟩ (5, 5) = true →
      ∃ b1, (Button.set_pos (Button.init (10, 10) none none none true) (0, 0)).handle_mouse_click
        (5, 5) = .ok (b1, 1)) ∧
    (Rect.collidepoint ⟨0, 0, 10, 10⟩ (5, 5) = false →
      (Button.set_pos (Button.init (10, 10) none none none true) (0, 0)).handle_mouse_click
        (5, 5) = .ok (Button.set_pos (Button.init (10, 10) none none none true) (0, 0), 0)) ∧
    (Rect.collidepoint ⟨0, 0, 10, 10⟩ (50, 50) = false →
      (Button.set_pos (Button.init (10, 10) none none none true) (0, 0)).handle_mouse_click
        (50, 50) = .ok (Button.set_pos (Button.init (10, 10) none none none true) (0, 0), 0)) :=
  ⟨(button_click_callback (Button.set_pos (Button.init (10, 10) none none none true) (0, 0))
      ⟨0, 0, 10, 10⟩ (5, 5) rfl rfl).1,
   (button_click_callback (Button.set_pos (Button.init (10, 10) none none none true) (0, 0))
      ⟨0, 0, 10, 10⟩ (5, 5) rfl rfl).2,
   (button_click_callback (Button.set_pos (Button.init (10, 10) none none none true) (0, 0))
      ⟨0, 0, 10, 10⟩ (50, 50) rfl rfl).2⟩

/-- C6: the mouse-motion transition table on a positioned component.
On false to true, `active_style` becomes `style_hovered` when that style
is present and is otherwise unchanged, and the on-hover hook fires; on
true to false, `active_style` becomes the normal style and the on-blur
hook fires; on the two steady cases no hook fires and the state is
completely unchanged. -/
theorem motion_transition_table (c : Component) (r : Rect) (p : Int × Int)
    (hr : c.rect = some r) :
    (c.is_hovered = false → r.collidepoint p = true →
      c.handle_mouse_motion p = .ok ({ c with
          is_hovered := true
          active_style :=
            if c.style_hovered.isSome then c.style_hovered else c.active_style },
        [.onHover])) ∧
    (c.is_hovered = true → r.collidepoint p = false →
      c.handle_mouse_motion p =
        .ok ({ c with is_hovered := false, active_style := c.style }, [.onBlur])) ∧
    (c.is_hovered = true → r.collidepoint p = true →
      c.handle_mouse_motion p = .ok (c, [])) ∧
    (c.is_hovered = false → r.collidepoint p = false →
      c.handle_mouse_motion p = .ok (c, [])) := by
  obtain ⟨sz, rc, stn, sth, ih, act⟩ := c
  simp only [Option.mem_def] at hr
  refine ⟨?_, ?_, ?_, ?_⟩ <;> intro h1 h2
  · simp_all [Component.handle_mouse_motion]
    cases sth <;> simp
  · simp_all [Component.handle_mouse_motion]
  · simp_all [Component.handle_mouse_motion]
  · simp_all [Component.handle_mouse_motion]

/-- Witness for C6 on a 10 by 10 component at the origin with a hovered
style, exercising the false-to-true row at the inside point (5, 5). -/
theorem motion_transition_table_witness :
    ((Component.init (10, 10) (some ⟨some 1, none, 1⟩) (some ⟨some 2, none, 1⟩)).set_pos
        (0, 0)).is_hovered = false ∧
    Rect.collidepoint ⟨0, 0, 10, 10⟩ (5, 5) = true ∧
    ((Component.init (10, 10) (some ⟨some 1, none, 1⟩) (some ⟨some 2, none, 1⟩)).set_pos
        (0, 0)).handle_mouse_motion (5, 5) =
      .ok ({ (Component.init (10, 10) (some ⟨some 1, none, 1⟩)
          (some ⟨some 2, none, 1⟩)).set_pos (0, 0) with
          is_hovered := true
          active_style :=
            if (some (⟨some 2, none, 1⟩ : Style)).isSome then some ⟨some 2, none, 1⟩
            else some ⟨some 1, none, 1⟩ },
        [.onHover]) :=
  ⟨rfl, rfl,
    (motion_transition_table
      ((Component.init (10, 10) (some ⟨some 1, none, 1⟩) (some ⟨some 2, none, 1⟩)).set_pos (0, 0))
      ⟨0, 0, 10, 10⟩ (5, 5) rfl).1 rfl rfl⟩

/-- Unfolding of `Button.update` with the local cooldown computation
inlined, used to reason by cases on the two branches. -/
theorem Button.update_eq (b : Button) (e : Int) :
    Button.update b e =
      if b.cooldown > 0 then
        if max (b.cooldown - e) 0 = 0 then
          { b with
              cooldown := max (b.cooldown - e) 0
              comp := { b.comp with
                active_style :=
                  if b.comp.is_hovered then b.comp.style_hovered else b.comp.style } }
        else { b with cooldown := max (b.cooldown - e) 0 }
      else b :=
  rfl

/-- C10: the per-frame `update` performs no initialization check: the
base `Component.update` is the identity on any component, positioned or
not, `Button.update` never touches the rect, and a button whose cooldown
is zero is left exactly as it was. -/
theorem update_before_set_pos (c : Component) (b : Button) (e : Int) :
    Component.update c e = c ∧
    (Button.update b e).comp.rect = b.comp.rect ∧
    (b.cooldown = 0 → Button.update b e = b) := by
  refine ⟨rfl, ?_, ?_⟩
  · rw [Button.update_eq]
    split
    · split <;> rfl
    · rfl
  · intro h0
    rw [Button.update_eq]
    simp [h0]

/-- Witness for C10 on an unpositioned button with zero cooldown. -/
theorem update_before_set_pos_witness :
    Component.update (Component.init (10, 10) none none) 16 = Component.init (10, 10) none none ∧
    (Button.update (Button.init (10, 10) none none none true) 16).comp.rect =
      (Button.init (10, 10) none none none true).comp.rect ∧
    Button.update (Button.init (10, 10) none none none true) 16 =
      Button.init (10, 10) none none none true :=
  ⟨(update_before_set_pos (Component.init (10, 10) none none)
      (Button.init (10, 10) none none none true) 16).1,
   (update_before_set_pos (Component.init (10, 10) none none)
      (Button.init (10, 10) none none none true) 16).2.1,
   (update_before_set_pos (Component.init (10, 10) none none)
      (Button.init (10, 10) none none none true) 16).2.2 rfl⟩

/-- C5: on a positioned component, a motion event leaves
`is_hovered = rect.collidepoint p`, an immediately repeated motion event
at the same point is idempotent (the state is returned unchanged and no
hook fires), and a motion trace going outside, inside, inside, outside
from the initial non-hovered state fires the on-hover hook exactly once
and the on-blur hook exactly once, in that order and nothing else. -/
theorem motion_idempotent_edge_hooks (c : Component) (r : Rect)
    (p p1 p2 p3 p4 : Int × Int) (hr : c.rect = some r) :
    (∃ c1 hs, c.handle_mouse_motion p = .ok (c1, hs) ∧
        c1.is_hovered = r.collidepoint p ∧
        c1.handle_mouse_motion p = .ok (c1, [])) ∧
    (c.is_hovered = false → r.collidepoint p1 = false → r.collidepoint p2 = true →
      r.collidepoint p3 = true → r.collidepoint p4 = false →
        (c.runMotions [p1, p2, p3, p4]).2 = [.onHover, .onBlur]) := by
  obtain ⟨sz, rc, stn, sth, ih, act⟩ := c
  obtain rfl : rc = some r := hr
  constructor
  · cases ih <;> rcases hcp : r.collidepoint p with _ | _
    · exact ⟨⟨sz, some r, stn, sth, false, act⟩, [],
        by simp [Component.handle_mouse_motion, hcp], rfl,
        by simp [Component.handle_mouse_motion, hcp]⟩
    · rcases sth with _ | sh
      · exact ⟨⟨sz, some r, stn, none, true, act⟩, [.onHover],
          by simp [Component.handle_mouse_motion, hcp], rfl,
          by simp [Component.handle_mouse_motion, hcp]⟩
      · exact ⟨⟨sz, some r, stn, some sh, true, some sh⟩, [.onHover],
          by simp [Component.handle_mouse_motion, hcp], rfl,
          by simp [Component.handle_mouse_motion, hcp]⟩
    · exact ⟨⟨sz, some r, stn, sth, false, stn⟩, [.onBlur],
        by simp [Component.handle_mouse_motion, hcp], rfl,
        by simp [Component.handle_mouse_motion, hcp]⟩
    · exact ⟨⟨sz, some r, stn, sth, true, act⟩, [],
        by simp [Component.handle_mouse_motion, hcp], rfl,
        by simp [Component.handle_mouse_motion, hcp]⟩
  · intro h0 h1 h2 h3 h4
    obtain rfl : ih = false := h0
    rcases sth with _ | sh <;>
      simp [Component.runMotions, Component.handle_mouse_motion, h1, h2, h3, h4]

/-- Witness for C5: a 10 by 10 component at the origin, repeated motion
at the inside point (5, 5), and the trace (50, 50), (5, 5), (6, 6),
(50, 50). -/
theorem motion_idempotent_edge_hooks_witness :
    (∃ c1 hs,
      ((Component.init (10, 10) (some ⟨some 1, none, 1⟩)
          (some ⟨some 2, none, 1⟩)).set_pos (0, 0)).handle_mouse_motion (5, 5) = .ok (c1, hs) ∧
      c1.is_hovered = Rect.collidepoint ⟨0, 0, 10, 10⟩ (5, 5) ∧
      c1.handle_mouse_motion (5, 5) = .ok (c1, [])) ∧
    (((Component.init (10, 10) (some ⟨some 1, none, 1⟩)
        (some ⟨some 2, none, 1⟩)).set_pos (0, 0)).runMotions
          [(50, 50), (5, 5), (6, 6), (50, 50)]).2 = [.onHover, .onBlur] :=
  ⟨(motion_idempotent_edge_hooks
      ((Component.init (10, 10) (some ⟨some 1, none, 1⟩) (some ⟨some 2, none, 1⟩)).set_pos (0, 0))
      ⟨0, 0, 10, 10⟩ (5, 5) (50, 50) (5, 5) (6, 6) (50, 50) rfl).1,
   (motion_idempotent_edge_hooks
      ((Component.init (10, 10) (some ⟨some 1, none, 1⟩) (some ⟨some 2, none, 1⟩)).set_pos (0, 0))
      ⟨0, 0, 10, 10⟩ (5, 5) (50, 50) (5, 5) (6, 6) (50, 50) rfl).2
    rfl (by decide) (by decide) (by decide) (by decide)⟩

/-- A hovered 10 by 10 button (normal style background 1, hovered 2,
on-click 3) clicked inside its rect, after which the mouse leaves the
rect while the cooldown is still running. -/
def cooldownMotionRun : Button :=
  Button.runOps
    (Button.set_pos
      (Button.init (10, 10) (some ⟨some 1, none, 1⟩) (some ⟨some 2, none, 1⟩)
        (some ⟨some 3, none, 1⟩) true) (0, 0))
    [.motion (5, 5), .click (5, 5), .motion (50, 50)]

/-- Counterexample to C2 as stated: in the state reached by hovering,
clicking inside the rect and then moving the mouse out of the rect, the
cooldown is still positive (150 remains of it) yet `active_style` is the
normal style, not `style_onclick`: the mouse-motion input event changed
the clicked-cooldown visual state. -/
theorem cooldown_style_invariant_cex :
    0 < cooldownMotionRun.cooldown ∧
    cooldownMotionRun.cooldown = 150 ∧
    cooldownMotionRun.style_on_click = some ⟨some 3, none, 1⟩ ∧
    cooldownMotionRun.comp.active_style = some ⟨some 1, none, 1⟩ ∧
    cooldownMotionRun.comp.active_style ≠ cooldownMotionRun.style_on_click := by
  decide

/-- C2 (amended): on a positioned button, the invariant that a positive
cooldown forces `active_style == style_onclick` is established by a click
inside the rect (which also starts the timer at 150) and is preserved by
every `update` call and by every motion event that does not cross the
hover boundary (such a motion is a complete no-op on the state); it is
not preserved by boundary-crossing motion events, which change
`active_style` while the cooldown keeps running. -/
theorem cooldown_exit_amended (b : Button) (r : Rect) (p q : Int × Int) (e : Int)
    (hr : b.comp.rect = some r)
    (hI : 0 < b.cooldown → b.comp.active_style = b.style_on_click)
    (hin : r.collidepoint p = true)
    (hsteady : r.collidepoint q = b.comp.is_hovered) :
    (0 < (Button.update b e).cooldown →
      (Button.update b e).comp.active_style = (Button.update b e).style_on_click) ∧
    ((Button.step b (.click p)).cooldown = 150 ∧
      (Button.step b (.click p)).comp.active_style = (Button.step b (.click p)).style_on_click) ∧
    Button.step b (.motion q) = b := by
  obtain ⟨⟨sz, rc, stn, sth, ih, act⟩, hcb, sc, cd⟩ := b
  obtain rfl : rc = some r := hr
  refine ⟨?_, ?_, ?_⟩
  · rw [Button.update_eq]
    split
    · split
      · rename_i hmax
        simp only [hmax]
        intro h
        exact absurd h (by simp)
      · intro _
        exact hI (by assumption)
    · exact hI
  · constructor <;>
      simp [Button.step, Button.handle_mouse_click, Button.on_click_hook, hin]
  · cases ih <;>
      simp_all [Button.step, Button.handle_mouse_motion, Component.handle_mouse_motion]

/-- Witness for C2 (amended) in the state right after a click: cooldown
150, active style the on-click style, a further inside point (6, 6) that
does not cross the hover boundary, and an update of 100 time-units. -/
theorem cooldown_exit_amended_witness :
    (0 < (Button.update (Button.runOps
        (Button.set_pos (Button.init (10, 10) (some ⟨some 1, none, 1⟩)
          (some ⟨some 2, none, 1⟩) (some ⟨some 3, none, 1⟩) true) (0, 0))
        [.motion (5, 5), .click (5, 5)]) 100).cooldown →
      (Button.update (Button.runOps
        (Button.set_pos (Button.init (10, 10) (some ⟨some 1, none, 1⟩)
          (some ⟨some 2, none, 1⟩) (some ⟨some 3, none, 1⟩) true) (0, 0))
        [.motion (5, 5), .click (5, 5)]) 100).comp.active_style =
      (Button.update (Button.runOps
        (Button.set_pos (Button.init (10, 10) (some ⟨some 1, none, 1⟩)
          (some ⟨some 2, none, 1⟩) (some ⟨some 3, none, 1⟩) true) (0, 0))
        [.motion (5, 5), .click (5, 5)]) 100).style_on_click) ∧
    ((Button.step (Button.runOps
        (Button.set_pos (Button.init (10, 10) (some ⟨some 1, none, 1⟩)
          (some ⟨some 2, none, 1⟩) (some ⟨some 3, none, 1⟩) true) (0, 0))
        [.motion (5, 5), .click (5, 5)]) (.click (5, 5))).cooldown = 150 ∧
      (Button.step (Button.runOps
        (Button.set_pos (Button.init (10, 10) (some ⟨some 1, none, 1⟩)
          (some ⟨some 2, none, 1⟩) (some ⟨some 3, none, 1⟩) true) (0, 0))
        [.motion (5, 5), .click (5, 5)]) (.click (5, 5))).comp.active_style =
      (Button.step (Button.runOps
        (Button.set_pos (Button.init (10, 10) (some ⟨some 1, none, 1⟩)
          (some ⟨some 2, none, 1⟩) (some ⟨some 3, none, 1⟩) true) (0, 0))
        [.motion (5, 5), .click (5, 5)]) (.click (5, 5))).style_on_click) ∧
    Button.step (Button.runOps
        (Button.set_pos (Button.init (10, 10) (some ⟨some 1, none, 1⟩)
          (some ⟨some 2, none, 1⟩) (some ⟨some 3, none, 1⟩) true) (0, 0))
        [.motion (5, 5), .click (5, 5)]) (.motion (6, 6)) =
      Button.runOps
        (Button.set_pos (Button.init (10, 10) (some ⟨some 1, none, 1⟩)
          (some ⟨some 2, none, 1⟩) (some ⟨some 3, none, 1⟩) true) (0, 0))
        [.motion (5, 5), .click (5, 5)] :=
  cooldown_exit_amended
    (Button.runOps
      (Button.set_pos (Button.init (10, 10) (some ⟨some 1, none, 1⟩)
        (some ⟨some 2, none, 1⟩) (some ⟨some 3, none, 1⟩) true) (0, 0))
      [.motion (5, 5), .click (5, 5)])
    ⟨0, 0, 10, 10⟩ (5, 5) (6, 6) 100 (by decide) (fun _ => by decide)
    (by decide) (by decide)

/-- `update` on a non-positive cooldown is the identity: the decrement
branch is guarded by `self._cooldown > 0`. -/
theorem Button.update_of_cooldown_nonpos (b : Button) (e : Int) (h : b.cooldown ≤ 0) :
    Button.update b e = b := by
  rw [Button.update_eq, if_neg (by omega)]

/-- A whole run of updates on a non-positive cooldown is the identity. -/
theorem Button.runUpdates_of_cooldown_nonpos (es : List Int) (b : Button)
    (h : b.cooldown ≤ 0) : Button.runUpdates b es = b := by
  induction es generalizing b with
  | nil => rfl
  | cons e es ih =>
    show Button.runUpdates (Button.update b e) es = b
    rw [Button.update_of_cooldown_nonpos b e h]
    exact ih b h

/-- Cumulative behavior of a run of nonnegative updates started with a
positive cooldown: the cooldown ends at the total elapsed time subtracted
and clamped at zero, the hover flag and the style set are untouched, and
`active_style` is untouched while the total stays below the cooldown but
is recomputed from the hover flag once the total reaches it. -/
theorem Button.runUpdates_spec (es : List Int) (b : Button)
    (hpos : ∀ e ∈ es, 0 ≤ e) (hcd : 0 < b.cooldown) :
    (Button.runUpdates b es).cooldown = max (b.cooldown - es.sum) 0 ∧
    (Button.runUpdates b es).comp.is_hovered = b.comp.is_hovered ∧
    (Button.runUpdates b es).comp.style = b.comp.style ∧
    (Button.runUpdates b es).comp.style_hovered = b.comp.style_hovered ∧
    (es.sum < b.cooldown →
      (Button.runUpdates b es).comp.active_style = b.comp.active_style) ∧
    (b.cooldown ≤ es.sum →
      (Button.runUpdates b es).comp.active_style =
        (if b.comp.is_hovered then b.comp.style_hovered else b.comp.style)) := by
  induction es generalizing b with
  | nil =>
    refine ⟨?_, rfl, rfl, rfl, fun _ => rfl, fun hle => ?_⟩
    · show b.cooldown = max (b.cooldown - List.sum []) 0
      simp only [List.sum_nil, sub_zero]
      omega
    · simp only [List.sum_nil] at hle
      exact absurd hcd (not_lt.mpr hle)
  | cons e es ih =>
    have he : 0 ≤ e := hpos e (by simp)
    have hes : ∀ x ∈ es, 0 ≤ x := fun x hx => hpos x (by simp [hx])
    have hsum : 0 ≤ es.sum := List.sum_nonneg hes
    by_cases hlt : e < b.cooldown
    · have hupd : Button.update b e = { b with cooldown := b.cooldown - e } := by
        rw [Button.update_eq, if_pos hcd, if_neg (by omega)]
        congr 1
        omega
      have hrun : Button.runUpdates b (e :: es) =
          Button.runUpdates { b with cooldown := b.cooldown - e } es := by
        show Button.runUpdates (Button.update b e) es = _
        rw [hupd]
      obtain ⟨hc, hh, hs, hsh, ha1, ha2⟩ :=
        ih { b with cooldown := b.cooldown - e } hes (by simp; omega)
      rw [hrun]
      refine ⟨?_, hh, hs, hsh, fun hlt2 => ?_, fun hle2 => ?_⟩
      · rw [hc]
        simp only [List.sum_cons]
        congr 1
        omega
      · exact ha1 (by simp only [List.sum_cons] at hlt2; simp; omega)
      · exact ha2 (by simp only [List.sum_cons] at hle2; simp; omega)
    · have hupd : Button.update b e = { b with
          cooldown := 0
          comp := { b.comp with
            active_style :=
              if b.comp.is_hovered then b.comp.style_hovered else b.comp.style } } := by
        rw [Button.update_eq, if_pos hcd, if_pos (by omega)]
        congr 1
        omega
      have hrun : Button.runUpdates b (e :: es) = { b with
          cooldown := 0
          comp := { b.comp with
            active_style :=
              if b.comp.is_hovered then b.comp.style_hovered else b.comp.style } } := by
        show Button.runUpdates (Button.update b e) es = _
        rw [hupd, Button.runUpdates_of_cooldown_nonpos es _ (by simp)]
      rw [hrun]
      refine ⟨?_, rfl, rfl, rfl, fun hlt2 => ?_, fun _ => rfl⟩
      · simp only [List.sum_cons]
        omega
      · simp only [List.sum_cons] at hlt2
        omega

/-- C4: a click inside a positioned button's rect leaves
`active_style == style_onclick` and starts the cooldown at the fixed 150
time-units; a following run of nonnegative `update` calls subtracts the
elapsed times from the cooldown clamping at zero, keeps `active_style`
at `style_onclick` while the cumulative total stays below 150, and once
the total reaches 150 leaves `active_style` equal to `style_hovered`
when hovered and to the normal style otherwise. -/
theorem button_cooldown_timing (b : Button) (r : Rect) (p : Int × Int) (es : List Int)
    (hr : b.comp.rect = some r) (hin : r.collidepoint p = true)
    (hpos : ∀ e ∈ es, 0 ≤ e) :
    ∃ b1 k, b.handle_mouse_click p = .ok (b1, k) ∧
      b1.comp.active_style = b.style_on_click ∧
      b1.cooldown = 150 ∧
      (Button.runUpdates b1 es).cooldown = max (150 - es.sum) 0 ∧
      (es.sum < 150 →
        (Button.runUpdates b1 es).comp.active_style = b.style_on_click) ∧
      (150 ≤ es.sum →
        (Button.runUpdates b1 es).comp.active_style =
          (if b.comp.is_hovered then b.comp.style_hovered else b.comp.style)) := by
  refine ⟨(Button.on_click_hook b).1, (Button.on_click_hook b).2, ?_, rfl, rfl, ?_, ?_, ?_⟩
  · simp [Button.handle_mouse_click, hr, hin]
  · exact (Button.runUpdates_spec es (Button.on_click_hook b).1 hpos (by norm_num [Button.on_click_hook])).1
  · exact fun hlt =>
      (Button.runUpdates_spec es (Button.on_click_hook b).1 hpos (by norm_num [Button.on_click_hook])).2.2.2.2.1 hlt
  · exact fun hle =>
      (Button.runUpdates_spec es (Button.on_click_hook b).1 hpos (by norm_num [Button.on_click_hook])).2.2.2.2.2 hle

/-- Witness for C4: a positioned, non-hovered button with all three
styles, clicked at (5, 5), then updated by 100 and 60 time-units (total
160, past the 150 cooldown). -/
theorem button_cooldown_timing_witness :
    ∃ b1 k,
      (Button.set_pos (Button.init (10, 10) (some ⟨some 1, none, 1⟩)
        (some ⟨some 2, none, 1⟩) (some ⟨some 3, none, 1⟩) true) (0, 0)).handle_mouse_click
          (5, 5) = .ok (b1, k) ∧
      b1.comp.active_style = (Button.set_pos (Button.init (10, 10) (some ⟨some 1, none, 1⟩)
        (some ⟨some 2, none, 1⟩) (some ⟨some 3, none, 1⟩) true) (0, 0)).style_on_click ∧
      b1.cooldown = 150 ∧
      (Button.runUpdates b1 ([100, 60] : List Int)).cooldown = max (150 - List.sum ([100, 60] : List Int)) 0 ∧
      (List.sum ([100, 60] : List Int) < 150 →
        (Button.runUpdates b1 ([100, 60] : List Int)).comp.active_style =
          (Button.set_pos (Button.init (10, 10) (some ⟨some 1, none, 1⟩)
            (some ⟨some 2, none, 1⟩) (some ⟨some 3, none, 1⟩) true) (0, 0)).style_on_click) ∧
      (150 ≤ List.sum ([100, 60] : List Int) →
        (Button.runUpdates b1 ([100, 60] : List Int)).comp.active_style =
          (if (Button.set_pos (Button.init (10, 10) (some ⟨some 1, none, 1⟩)
              (some ⟨some 2, none, 1⟩) (some ⟨some 3, none, 1⟩) true) (0, 0)).comp.is_hovered
            then (Button.set_pos (Button.init (10, 10) (some ⟨some 1, none, 1⟩)
              (some ⟨some 2, none, 1⟩) (some ⟨some 3, none, 1⟩) true) (0, 0)).comp.style_hovered
            else (Button.set_pos (Button.init (10, 10) (some ⟨some 1, none, 1⟩)
              (some ⟨some 2, none, 1⟩) (some ⟨some 3, none, 1⟩) true) (0, 0)).comp.style)) :=
  button_cooldown_timing
    (Button.set_pos (Button.init (10, 10) (some ⟨some 1, none, 1⟩)
      (some ⟨some 2, none, 1⟩) (some ⟨some 3, none, 1⟩) true) (0, 0))
    ⟨0, 0, 10, 10⟩ (5, 5) ([100, 60] : List Int) rfl (by decide) (by decide)

/-- Any single operation keeps the three configured styles of a button
unchanged and moves `active_style` only within the set consisting of its
previous value, the normal style, the hovered style and the on-click
style. -/
theorem Button.step_styles (b : Button) (op : Button.Op) :
    (Button.step b op).comp.style = b.comp.style ∧
    (Button.step b op).comp.style_hovered = b.comp.style_hovered ∧
    (Button.step b op).style_on_click = b.style_on_click ∧
    ((Button.step b op).comp.active_style = b.comp.active_style ∨
      (Button.step b op).comp.active_style = b.comp.style ∨
      (Button.step b op).comp.active_style = b.comp.style_hovered ∨
      (Button.step b op).comp.active_style = b.style_on_click) := by
  obtain ⟨⟨sz, rc, stn, sth, ih, act⟩, hcb, sc, cd⟩ := b
  cases op with
  | setPos pos => exact ⟨rfl, rfl, rfl, Or.inl rfl⟩
  | motion p =>
    cases rc with
    | none => exact ⟨rfl, rfl, rfl, Or.inl rfl⟩
    | some r =>
      cases ih <;> rcases hcp : r.collidepoint p with _ | _ <;>
          rcases sth with _ | sh <;>
        simp [Button.step, Button.handle_mouse_motion, Component.handle_mouse_motion, hcp]
  | click p =>
    cases rc with
    | none => exact ⟨rfl, rfl, rfl, Or.inl rfl⟩
    | some r =>
      rcases hcp : r.collidepoint p with _ | _ <;>
        simp [Button.step, Button.handle_mouse_click, Button.on_click_hook, hcp]
  | tick e =>
    simp only [Button.step]
    rw [Button.update_eq]
    split
    · split
      · cases ih <;> simp
      · exact ⟨rfl, rfl, rfl, Or.inl rfl⟩
    · exact ⟨rfl, rfl, rfl, Or.inl rfl⟩

/-- Over any run of operations from a state whose three styles are set
and whose `active_style` is one of them, `active_style` stays one of
them. -/
theorem Button.runOps_active_style (sn sh sc : Style) (ops : List Button.Op) (b : Button)
    (h1 : b.comp.style = some sn) (h2 : b.comp.style_hovered = some sh)
    (h3 : b.style_on_click = some sc)
    (h4 : b.comp.active_style = some sn ∨ b.comp.active_style = some sh ∨
      b.comp.active_style = some sc) :
    (Button.runOps b ops).comp.active_style = some sn ∨
    (Button.runOps b ops).comp.active_style = some sh ∨
    (Button.runOps b ops).comp.active_style = some sc := by
  induction ops generalizing b with
  | nil => exact h4
  | cons op ops ih =>
    obtain ⟨e1, e2, e3, e4⟩ := Button.step_styles b op
    refine ih (Button.step b op) (e1.trans h1) (e2.trans h2) (e3.trans h3) ?_
    rcases e4 with e | e | e | e
    · rw [e]; exact h4
    · rw [e, h1]; exact Or.inl rfl
    · rw [e, h2]; exact Or.inr (Or.inl rfl)
    · rw [e, h3]; exact Or.inr (Or.inr rfl)

/-- A button whose normal style is set but whose `style_onclick` kwarg was
omitted, positioned at the origin and then clicked inside its rect. -/
def clickWithoutOnclickStyle : Button :=
  Button.runOps (Button.init (10, 10) (some ⟨some 1, none, 1⟩) none none true)
    [.setPos (0, 0), .click (5, 5)]

/-- Counterexample to C7 as stated: a button with `style_normal` set but
no `style_onclick` reaches, by a single inside click, a state whose
`active_style` is `None` (`Button._on_click` assigns `style_on_click`
unconditionally). -/
theorem active_style_never_none_cex :
    (Button.init (10, 10) (some ⟨some 1, none, 1⟩) none none true).comp.style =
      some ⟨some 1, none, 1⟩ ∧
    clickWithoutOnclickStyle.comp.active_style = none := by
  decide

/-- C7 (amended): for a button constructed with all of `style_normal`,
`style_hovered` and `style_onclick` set, in every state reachable by any
sequence of `set_pos`, `handle_mouse_motion`, `handle_mouse_click` and
`update` operations, `active_style` is never `None`: it is one of the
normal, hovered or on-click styles. -/
theorem active_style_never_none_amended (size : Int × Int) (sn sh sc : Style)
    (hcb : Bool) (ops : List Button.Op) :
    (Button.runOps (Button.init size (some sn) (some sh) (some sc) hcb) ops).comp.active_style
        = some sn ∨
    (Button.runOps (Button.init size (some sn) (some sh) (some sc) hcb) ops).comp.active_style
        = some sh ∨
    (Button.runOps (Button.init size (some sn) (some sh) (some sc) hcb) ops).comp.active_style
        = some sc :=
  Button.runOps_active_style sn sh sc ops
    (Button.init size (some sn) (some sh) (some sc) hcb) rfl rfl rfl (Or.inl rfl)

/-- Cumulative effect of `n` clicks inside a positioned toggler's rect:
the color list never changes, the index advances by `n` modulo the list
length, and `background` tracks the color at the index. -/
theorem ColorToggler.clicks_spec (n : Nat) (t : ColorToggler) (r : Rect) (p : Int × Int)
    (hr : t.btn.comp.rect = some r) (hin : r.collidepoint p = true)
    (hidx : t.index < t.colors.length)
    (hbg : t.background = t.colors.getD t.index 0) :
    (ColorToggler.clicks t p n).colors = t.colors ∧
    (ColorToggler.clicks t p n).index = (t.index + n) % t.colors.length ∧
    (ColorToggler.clicks t p n).background =
      t.colors.getD ((t.index + n) % t.colors.length) 0 := by
  induction n generalizing t with
  | zero =>
    refine ⟨rfl, ?_, ?_⟩
    · simp [ColorToggler.clicks, Nat.mod_eq_of_lt hidx]
    · simpa [ColorToggler.clicks, Nat.mod_eq_of_lt hidx] using hbg
  | succ n ih =>
    have hlen : 0 < t.colors.length := Nat.lt_of_le_of_lt (Nat.zero_le _) hidx
    have hstep : ColorToggler.clicks t p (n + 1) =
        ColorToggler.clicks (ColorToggler.on_click_hook t) p n := by
      simp [ColorToggler.clicks, ColorToggler.handle_mouse_click, hr, hin]
    obtain ⟨hc, hi, hb⟩ := ih (ColorToggler.on_click_hook t) hr
      (Nat.mod_lt _ hlen) rfl
    rw [hstep]
    refine ⟨hc, ?_, ?_⟩
    · rw [hi]
      show ((t.index + 1) % t.colors.length + n) % t.colors.length = _
      rw [Nat.mod_add_mod]
      congr 1
      omega
    · rw [hb]
      show t.colors.getD (((t.index + 1) % t.colors.length + n) % t.colors.length) 0 = _
      rw [Nat.mod_add_mod]
      congr 2
      omega

/-- C8: on a positioned `ColorToggler` with `N` colors whose state
satisfies the construction invariants (index in range, `background`
holding the color at the index), a click inside the rect advances the
index by exactly one modulo `N` and sets `background` to the color at
the new index, and a run of exactly `N` such clicks returns both the
index and the active background color to their original values. -/
theorem color_toggler_cycle (t : ColorToggler) (r : Rect) (p : Int × Int) (N : Nat)
    (hr : t.btn.comp.rect = some r) (hin : r.collidepoint p = true)
    (hN : t.colors.length = N) (hidx : t.index < N)
    (hbg : t.background = t.colors.getD t.index 0) :
    (t.handle_mouse_click p = .ok (ColorToggler.on_click_hook t) ∧
      (ColorToggler.on_click_hook t).index = (t.index + 1) % N ∧
      (ColorToggler.on_click_hook t).background = t.colors.getD ((t.index + 1) % N) 0) ∧
    ((ColorToggler.clicks t p N).index = t.index ∧
      (ColorToggler.clicks t p N).background = t.background) := by
  subst hN
  obtain ⟨hc, hi, hb⟩ :=
    ColorToggler.clicks_spec t.colors.length t r p hr hin hidx hbg
  refine ⟨⟨?_, rfl, rfl⟩, ?_, ?_⟩
  · simp [ColorToggler.handle_mouse_click, hr, hin]
  · rw [hi, Nat.add_mod_right, Nat.mod_eq_of_lt hidx]
  · rw [hb, Nat.add_mod_right, Nat.mod_eq_of_lt hidx, hbg]

/-- Witness for C8: a positioned 10 by 10 toggler with colors 5, 6, 7,
clicked three times at (5, 5). -/
theorem color_toggler_cycle_witness :
    ((ColorToggler.init (Button.set_pos (Button.init (10, 10) none none none false) (0, 0))
        5 [6, 7]).handle_mouse_click (5, 5) =
      .ok (ColorToggler.on_click_hook (ColorToggler.init
        (Button.set_pos (Button.init (10, 10) none none none false) (0, 0)) 5 [6, 7])) ∧
      (ColorToggler.on_click_hook (ColorToggler.init
        (Button.set_pos (Button.init (10, 10) none none none false) (0, 0)) 5 [6, 7])).index =
        (0 + 1) % 3 ∧
      (ColorToggler.on_click_hook (ColorToggler.init
        (Button.set_pos (Button.init (10, 10) none none none false) (0, 0)) 5 [6, 7])).background =
        List.getD [5, 6, 7] ((0 + 1) % 3) 0) ∧
    ((ColorToggler.clicks (ColorToggler.init
        (Button.set_pos (Button.init (10, 10) none none none false) (0, 0)) 5 [6, 7])
        (5, 5) 3).index = 0 ∧
      (ColorToggler.clicks (ColorToggler.init
        (Button.set_pos (Button.init (10, 10) none none none false) (0, 0)) 5 [6, 7])
        (5, 5) 3).background = 5) :=
  color_toggler_cycle
    (ColorToggler.init (Button.set_pos (Button.init (10, 10) none none none false) (0, 0)) 5 [6, 7])
    ⟨0, 0, 10, 10⟩ (5, 5) 3 rfl (by decide) rfl (by decide) rfl

/-- The row-major cell enumeration covers exactly `rows * cols` cells. -/
theorem gridCells_length (rows cols : Nat) :
    (gridCells rows cols).length = rows * cols := by
  induction rows with
  | zero => simp [gridCells]
  | succ n ih =>
    have hsplit : gridCells (n + 1) cols =
        gridCells n cols ++ (List.range cols).map fun c => (n, c) := by
      rw [gridCells, gridCells, List.range_succ, List.flatMap_append]
      simp
    rw [hsplit, List.length_append, ih, List.length_map, List.length_range, Nat.succ_mul]

/-- The `i`-th row-major cell is row `i / cols`, column `i % cols`. -/
theorem gridCells_getElem (rows cols i : Nat) (hi : i < rows * cols) :
    (gridCells rows cols)[i]? = some (i / cols, i % cols) := by
  induction rows with
  | zero => omega
  | succ n ih =>
    have hsplit : gridCells (n + 1) cols =
        gridCells n cols ++ (List.range cols).map fun c => (n, c) := by
      rw [gridCells, gridCells, List.range_succ, List.flatMap_append]
      simp
    rw [hsplit, List.getElem?_append, gridCells_length]
    by_cases h : i < n * cols
    · rw [if_pos h]
      exact ih h
    · rw [if_neg h]
      have hcols : 0 < cols := by
        rcases Nat.eq_zero_or_pos cols with h0 | h0
        · subst h0
          omega
        · exact h0
      have hlt : i - n * cols < cols := by
        rw [Nat.succ_mul] at hi
        omega
      have hdiv : i / cols = n :=
        Nat.div_eq_of_lt_le (by omega) (by rw [Nat.succ_mul]; omega)
      have hmod : i % cols = i - n * cols := by
        have hmd := Nat.mod_add_div i cols
        rw [hdiv, Nat.mul_comm] at hmd
        omega
      rw [List.getElem?_map, List.getElem?_range hlt]
      simp [hdiv, hmod]

/-- C9 (spec-modelled): constructing a Grid with more children than
`rows * cols` cells fails with `LayoutOverflowError` at construction
time, and a construction with at most `rows * cols` children succeeds
and places the child at list-index `i` in row `i / cols`, column
`i % cols` (row-major, 0-indexed). -/
theorem grid_layout (α : Type) (rows cols : Nat) (children : List α) :
    (rows * cols < children.length →
      GridContainer.make rows cols children = .error .layoutOverflow) ∧
    (children.length ≤ rows * cols →
      ∃ g, GridContainer.make rows cols children = .ok g ∧
        g.children = children ∧
        g.cells.length = children.length ∧
        ∀ i, i < children.length → g.cells[i]? = some (i / cols, i % cols)) := by
  constructor
  · intro h
    rw [GridContainer.make, if_pos h]
  · intro h
    refine ⟨_, by rw [GridContainer.make, if_neg (by omega)], rfl, ?_, ?_⟩
    · show ((gridCells rows cols).take children.length).length = _
      rw [List.length_take, gridCells_length]
      omega
    · intro i hi
      show ((gridCells rows cols).take children.length)[i]? = _
      rw [List.getElem?_take, if_pos hi]
      exact gridCells_getElem rows cols i (by omega)

/-- Witness for C9: a 2 by 3 grid rejects 7 children and lays out 4
children row-major. -/
theorem grid_layout_witness :
    GridContainer.make 2 3 [10, 11, 12, 13, 14, 15, 16] = .error .layoutOverflow ∧
    ∃ g, GridContainer.make 2 3 [20, 21, 22, 23] = .ok g ∧
      g.children = [20, 21, 22, 23] ∧
      g.cells.length = List.length [20, 21, 22, 23] ∧
      ∀ i, i < List.length [20, 21, 22, 23] → g.cells[i]? = some (i / 3, i % 3) :=
  ⟨(grid_layout Nat 2 3 [10, 11, 12, 13, 14, 15, 16]).1 (by decide),
   (grid_layout Nat 2 3 [20, 21, 22, 23]).2 (by decide)⟩
